import Mathlib

/-!
Verification of the Booppa evidence-processing pipeline.

This file shallowly embeds the core of the repository in Lean 4:

* `app/billing/enforcement.py` (`resolve_tier`, `enforce_tier`)
* `app/services/access_control.py` (`check_access`)
* `app/services/blockchain.py` (`BlockchainService.anchor_evidence`,
  `get_anchor_status`)
* `app/services/audit_chain.py` (`append_audit_event`)
* `app/core/blockchain/notary.py` (`notarize`) and
  `app/core/cache/cache.py` (`cache_key`, `get`, `set`)
* `app/orchestrator/engine.py` (`run`)
* `app/workers/tasks.py` (`process_report_workflow`)
* `app/api/reports.py` (the polling re-trigger guard)

Python dictionaries are modelled as association lists of `String` keys and
`JValue` values; fallible Python code returns `Except PyErr`; SHA-256 and the
canonical JSON serialization (`json.dumps` with `sort_keys=True`) are
implemented concretely.
-/

namespace Booppa

/-! ## JSON-like values (Python dict / list / scalar model) -/

/-- Model of a Python value as it appears in `assessment_data`, cache entries
and JSON payloads: null / bool / int / string / list / dict. Dicts are
association lists in insertion order; Python dict keys are unique. -/
inductive JValue where
  | null : JValue
  | bool (b : Bool) : JValue
  | num (n : Int) : JValue
  | str (s : String) : JValue
  | arr (elems : List JValue) : JValue
  | obj (entries : List (String × JValue)) : JValue

/-- Python dictionary: association list with unique keys, insertion order. -/
abbrev PyDict := List (String × JValue)

/-- Model of `d.get(k)`: the first binding of `k`, if any. -/
def dget : PyDict → String → Option JValue
  | [], _ => none
  | (k0, v0) :: rest, k => if k0 == k then some v0 else dget rest k

/-- Model of `d[k] = v` / `dict.update` for a single key: replace an existing
binding in place, else append (Python dicts keep insertion order). -/
def dset (d : PyDict) (k : String) (v : JValue) : PyDict :=
  match d with
  | [] => [(k, v)]
  | (k0, v0) :: rest =>
      if k0 == k then (k0, v) :: rest else (k0, v0) :: dset rest k v

/-- Model of `d.update(updates)` applied left to right. -/
def dmerge (d : PyDict) (updates : PyDict) : PyDict :=
  updates.foldl (fun acc p => dset acc p.1 p.2) d

/-- Python truthiness of a value (`bool(v)`). -/
def pyTruthy : JValue → Bool
  | .null => false
  | .bool b => b
  | .num n => n != 0
  | .str s => s != ""
  | .arr l => !l.isEmpty
  | .obj l => !l.isEmpty

/-- Truthiness of an optional value; `None` (a missing key) is falsy. -/
def pyTruthyOpt : Option JValue → Bool
  | some v => pyTruthy v
  | none => false

/-- Python `a or b` on optional values: `a` if truthy, else `b`. -/
def pyOr (a b : Option JValue) : Option JValue :=
  if pyTruthyOpt a then a else b

/-- Python `str(v)` for the values that reach `_normalize` in the source. -/
def pyStr : JValue → String
  | .null => "None"
  | .bool true => "True"
  | .bool false => "False"
  | .num n => toString n
  | .str s => s
  | .arr _ => "[...]"
  | .obj _ => "\x7b...\x7d"

/-! String primitives over the character list (Python `str` semantics;
implemented here because they must reduce inside the kernel). -/

/-- Whitespace for Python `str.strip()`. -/
def isPyWhitespace (c : Char) : Bool :=
  c == ' ' || c == '\t' || c == '\n' || c == '\r' ||
  c.toNat == 11 || c.toNat == 12

/-- Model of Python `s.strip()`. -/
def pyStrip (s : String) : String :=
  String.mk (((s.data.dropWhile isPyWhitespace).reverse.dropWhile
    isPyWhitespace).reverse)

/-- ASCII lowercase of one character (`str.lower` on the inputs that occur:
status values, product keys, URLs schemes). -/
def asciiLowerChar (c : Char) : Char :=
  if 65 ≤ c.toNat && c.toNat ≤ 90 then Char.ofNat (c.toNat + 32) else c

/-- Model of Python `s.lower()`. -/
def pyLower (s : String) : String :=
  String.mk (s.data.map asciiLowerChar)

/-- Model of Python `s.startswith(pre)`. -/
def strStartsWith (s pre : String) : Bool :=
  pre.data.isPrefixOf s.data

/-- Model of Python `s[:n]` (also `s[n:]` via `strDrop`). -/
def strTake (s : String) (n : Nat) : String :=
  String.mk (s.data.take n)

/-- Model of Python `s[n:]`. -/
def strDrop (s : String) (n : Nat) : String :=
  String.mk (s.data.drop n)

/-- Parse a decimal natural number, or `none`. -/
def strToNatQ (s : String) : Option Nat :=
  if s.data.isEmpty then none
  else if s.data.all (fun c => 48 ≤ c.toNat && c.toNat ≤ 57) then
    some (s.data.foldl (fun acc c => acc * 10 + (c.toNat - 48)) 0)
  else none

/-- Model of `int(v)` with the `except: 0` fallback used around it in
`app/api/reports.py` (non-numeric values fall back to the default). -/
def asIntD (v : Option JValue) (dflt : Int) : Int :=
  match v with
  | some (.num n) => n
  | some (.str s) => match strToNatQ s with | some n => (n : Int) | none => dflt
  | _ => dflt

/-! ## SHA-256 over byte lists (bytes as `Nat < 256`, words as `Nat < 2^32`) -/

/-- The modulus for 32-bit word arithmetic (2 to the 32nd power). -/
def M32 : Nat := 4294967296

/-- Right rotation of a 32-bit word. -/
def rotr32 (x n : Nat) : Nat :=
  ((x >>> n) + ((x % (2 ^ n)) * 2 ^ (32 - n))) % M32

/-- SHA-256 round constants. -/
def shaK : List Nat :=
  [1116352408, 1899447441, 3049323471, 3921009573, 961987163, 1508970993,
   2453635748, 2870763221, 3624381080, 310598401, 607225278, 1426881987,
   1925078388, 2162078206, 2614888103, 3248222580, 3835390401, 4022224774,
   264347078, 604807628, 770255983, 1249150122, 1555081692, 1996064986,
   2554220882, 2821834349, 2952996808, 3210313671, 3336571891, 3584528711,
   113926993, 338241895, 666307205, 773529912, 1294757372, 1396182291,
   1695183700, 1986661051, 2177026350, 2456956037, 2730485921, 2820302411,
   3259730800, 3345764771, 3516065817, 3600352804, 4094571909, 275423344,
   430227734, 506948616, 659060556, 883997877, 958139571, 1322822218,
   1537002063, 1747873779, 1955562222, 2024104815, 2227730452, 2361852424,
   2428436474, 2756734187, 3204031479, 3329325298]

/-- SHA-256 initial hash state. -/
def shaH0 : List Nat :=
  [1779033703, 3144134277, 1013904242, 2773480762,
   1359893119, 2600822924, 528734635, 1541459225]

/-- Group a byte list into big-endian 32-bit words (length must be a
multiple of 4; trailing partial groups are dropped). -/
def bytesToWords : List Nat → List Nat
  | b0 :: b1 :: b2 :: b3 :: rest =>
      (((b0 * 256 + b1) * 256 + b2) * 256 + b3) :: bytesToWords rest
  | _ => []

/-- Message-schedule extension step: append the next scheduled word, `n`
more times (structural recursion on the count so the kernel can reduce it). -/
def shaExtendAux : Nat → Array Nat → Array Nat
  | 0, w => w
  | n + 1, w =>
      let i := w.size
      let wa := w.getD (i - 15) 0
      let wb := w.getD (i - 2) 0
      let s0 := (Nat.xor (Nat.xor (rotr32 wa 7) (rotr32 wa 18)) (wa >>> 3)) % M32
      let s1 := (Nat.xor (Nat.xor (rotr32 wb 17) (rotr32 wb 19)) (wb >>> 10)) % M32
      let wi := (w.getD (i - 16) 0 + s0 + w.getD (i - 7) 0 + s1) % M32
      shaExtendAux n (w.push wi)

/-- Message-schedule extension: extend the 16 chunk words to 64. -/
def shaExtend (w : Array Nat) : Array Nat :=
  shaExtendAux 48 w

/-- One SHA-256 compression round. -/
def shaRound (st : List Nat) (kw : Nat × Nat) : List Nat :=
  match st with
  | [a, b, c, d, e, f, g, h] =>
      let s1 := Nat.xor (Nat.xor (rotr32 e 6) (rotr32 e 11)) (rotr32 e 25)
      let ch := Nat.xor (Nat.land e f) (Nat.land ((M32 - 1) - e) g)
      let t1 := (h + s1 + ch + kw.1 + kw.2) % M32
      let s0 := Nat.xor (Nat.xor (rotr32 a 2) (rotr32 a 13)) (rotr32 a 22)
      let mj := Nat.xor (Nat.xor (Nat.land a b) (Nat.land a c)) (Nat.land b c)
      let t2 := (s0 + mj) % M32
      [(t1 + t2) % M32, a, b, c, (d + t1) % M32, e, f, g]
  | other => other

/-- Compress one 64-byte chunk into the running hash state. -/
def shaChunk (h : List Nat) (chunk : List Nat) : List Nat :=
  let w0 := (bytesToWords chunk).toArray
  let w := shaExtend w0
  let kw := shaK.zip w.toList
  let st := kw.foldl shaRound h
  (h.zip st).map (fun p => (p.1 + p.2) % M32)

/-- Split a list into chunks of 64 elements (fuel-based structural recursion
so the kernel can reduce it; the fuel is initialized to the list length,
which bounds the number of chunks). -/
def chunks64Aux : Nat → List Nat → List (List Nat)
  | 0, _ => []
  | fuel + 1, l =>
      if l.isEmpty then []
      else l.take 64 :: chunks64Aux fuel (l.drop 64)

/-- Split a list into chunks of 64 elements. -/
def chunks64 (l : List Nat) : List (List Nat) :=
  chunks64Aux l.length l

/-- SHA-256 padding: append `0x80`, zeros, and the 64-bit big-endian bit
length, to a multiple of 64 bytes. -/
def shaPad (msg : List Nat) : List Nat :=
  let len := msg.length
  let bitLen := len * 8
  let zeros := (64 - ((len + 9) % 64)) % 64
  let lenBytes := (List.range 8).map (fun i => (bitLen >>> ((7 - i) * 8)) % 256)
  msg ++ [0x80] ++ List.replicate zeros 0 ++ lenBytes

/-- SHA-256 of a byte list, as the list of eight 32-bit state words. -/
def sha256Words (msg : List Nat) : List Nat :=
  (chunks64 (shaPad msg)).foldl shaChunk shaH0

/-- Lowercase hexadecimal digit for a value below 16. -/
def hexDigit (n : Nat) : Char :=
  if n < 10 then Char.ofNat (48 + n) else Char.ofNat (87 + n)

/-- Render a 32-bit word as 8 lowercase hex characters. -/
def wordToHex (w : Nat) : String :=
  String.mk ((List.range 8).map (fun i => hexDigit ((w >>> ((7 - i) * 4)) % 16)))

/-- UTF-8 encoding of one character, as bytes. -/
def utf8Char (c : Char) : List Nat :=
  let n := c.toNat
  if n < 0x80 then [n]
  else if n < 0x800 then
    [0xc0 + (n >>> 6), 0x80 + (n % 64)]
  else if n < 0x10000 then
    [0xe0 + (n >>> 12), 0x80 + ((n >>> 6) % 64), 0x80 + (n % 64)]
  else
    [0xf0 + (n >>> 18), 0x80 + ((n >>> 12) % 64), 0x80 + ((n >>> 6) % 64),
     0x80 + (n % 64)]

/-- UTF-8 encoding of a string, as bytes (model of `s.encode("utf-8")`). -/
def utf8Bytes (s : String) : List Nat :=
  s.data.foldr (fun c acc => utf8Char c ++ acc) []

/-- Model of `hashlib.sha256(s.encode("utf-8")).hexdigest()`. -/
def sha256HexOfString (s : String) : String :=
  String.join ((sha256Words (utf8Bytes s)).map wordToHex)

/-! ## Canonical JSON serialization: `json.dumps(v, sort_keys=True)`

`json.dumps` with default separators joins items with `", "` and key/value
with `": "`; `sort_keys=True` emits each object's items in sorted key order.
`ensure_ascii` (default `True`; `notarize` passes `False`) controls whether
non-ASCII characters are emitted as `\uXXXX` escapes. -/

/-- Four lowercase hex digits, for `\uXXXX` escapes. -/
def hex4 (n : Nat) : String :=
  String.mk [hexDigit ((n >>> 12) % 16), hexDigit ((n >>> 8) % 16),
             hexDigit ((n >>> 4) % 16), hexDigit (n % 16)]

/-- JSON escaping of one character (`ea` is `ensure_ascii`). -/
def escChar (ea : Bool) (c : Char) : String :=
  if c == '"' then "\\\""
  else if c == '\\' then "\\\\"
  else if c == '\n' then "\\n"
  else if c == '\t' then "\\t"
  else if c == '\r' then "\\r"
  else if c.toNat == 8 then "\\b"
  else if c.toNat == 12 then "\\f"
  else if c.toNat < 32 then "\\u" ++ hex4 c.toNat
  else if ea && c.toNat ≥ 127 then
    if c.toNat < 65536 then "\\u" ++ hex4 c.toNat
    else
      let n := c.toNat - 65536
      "\\u" ++ hex4 (55296 + (n >>> 10)) ++ "\\u" ++ hex4 (56320 + (n % 1024))
  else String.singleton c

/-- JSON string literal (quotes plus escaped content). -/
def jsonQuote (ea : Bool) (s : String) : String :=
  "\"" ++ s.data.foldr (fun c acc => escChar ea c ++ acc) "" ++ "\""

/-- Join with the default item separator `", "`. -/
def joinComma : List String → String
  | [] => ""
  | [x] => x
  | x :: rest => x ++ ", " ++ joinComma rest

/-- Lexicographic comparison of character lists by code point, the order
Python uses to compare strings (a computable model of `String` order). -/
def charListLe : List Char → List Char → Bool
  | [], _ => true
  | _ :: _, [] => false
  | a :: as, b :: bs =>
      if a = b then charListLe as bs else decide (a < b)

/-- Python string comparison `a <= b` (code-point lexicographic). -/
def strLe (a b : String) : Bool := charListLe a.data b.data

theorem charListLe_total : ∀ as bs, charListLe as bs = true ∨ charListLe bs as = true
  | [], _ => Or.inl rfl
  | _ :: _, [] => Or.inr rfl
  | a :: as, b :: bs => by
      by_cases h : a = b
      · subst h
        simpa [charListLe] using charListLe_total as bs
      · rcases lt_or_gt_of_ne h with hlt | hgt
        · exact Or.inl (by simp [charListLe, h, hlt])
        · exact Or.inr (by simp [charListLe, Ne.symm h, hgt, not_lt_of_gt hgt])

theorem charListLe_antisymm :
    ∀ as bs, charListLe as bs = true → charListLe bs as = true → as = bs
  | [], [], _, _ => rfl
  | [], _ :: _, _, h2 => by simp [charListLe] at h2
  | _ :: _, [], h1, _ => by simp [charListLe] at h1
  | a :: as, b :: bs, h1, h2 => by
      by_cases h : a = b
      · subst h
        simp only [charListLe, if_pos rfl] at h1 h2
        exact congrArg (a :: ·) (charListLe_antisymm as bs h1 h2)
      · simp only [charListLe, if_neg h, if_neg (Ne.symm h), decide_eq_true_eq] at h1 h2
        exact absurd (lt_trans h1 h2) (lt_irrefl a)

theorem charListLe_trans :
    ∀ as bs cs, charListLe as bs = true → charListLe bs cs = true →
      charListLe as cs = true
  | [], _, _, _, _ => rfl
  | _ :: _, [], _, h1, _ => by simp [charListLe] at h1
  | _ :: _, _ :: _, [], _, h2 => by simp [charListLe] at h2
  | a :: as, b :: bs, c :: cs, h1, h2 => by
      by_cases hab : a = b
      · subst hab
        by_cases hac : a = c
        · subst hac
          simp only [charListLe, if_pos rfl] at h1 h2 ⊢
          exact charListLe_trans as bs cs h1 h2
        · simp only [charListLe, if_pos rfl] at h1
          simpa [charListLe, hac] using h2
      · by_cases hbc : b = c
        · subst hbc
          have hac : a ≠ b := hab
          simpa [charListLe, hac] using h1
        · simp only [charListLe, if_neg hab, if_neg hbc, decide_eq_true_eq] at h1 h2
          have hac : a < c := lt_trans h1 h2
          simp [charListLe, ne_of_lt hac, hac]

/-- Order on serialized object entries: by raw key (Python's `sorted` on a
dict's items; keys are unique in a dict, so only the key matters). -/
def entryLE (a b : String × String) : Prop := strLe a.1 b.1 = true

instance : DecidableRel entryLE :=
  fun a b => inferInstanceAs (Decidable (strLe a.1 b.1 = true))

instance : IsTotal (String × String) entryLE :=
  ⟨fun a b => charListLe_total a.1.data b.1.data⟩

instance : IsTrans (String × String) entryLE :=
  ⟨fun _ _ _ hab hbc => charListLe_trans _ _ _ hab hbc⟩

/-- Keys are equal when each is at most the other. -/
theorem strLe_antisymm {a b : String} (h1 : strLe a b = true)
    (h2 : strLe b a = true) : a = b := by
  cases a
  cases b
  exact congrArg String.mk (charListLe_antisymm _ _ h1 h2)

/-- Strict version of `entryLE` (key at most, and keys distinct), used only
in proofs. -/
def entryLT (a b : String × String) : Prop := entryLE a b ∧ a.1 ≠ b.1

instance : IsAntisymm (String × String) entryLT :=
  ⟨fun _ _ hab hba => absurd (strLe_antisymm hab.1 hba.1) hab.2⟩

mutual

/-- Model of Python `json.dumps(v, sort_keys=True)`; `ea` is `ensure_ascii`. -/
def dumps (ea : Bool) : JValue → String
  | .null => "null"
  | .bool true => "true"
  | .bool false => "false"
  | .num n => toString n
  | .str s => jsonQuote ea s
  | .arr l => "[" ++ joinComma (dumpsList ea l) ++ "]"
  | .obj l =>
      "\x7b" ++
        joinComma
          ((List.insertionSort entryLE (dumpsEntries ea l)).map
            (fun p => jsonQuote ea p.1 ++ ": " ++ p.2)) ++
      "\x7d"

/-- Serialize every element of a JSON array. -/
def dumpsList (ea : Bool) : List JValue → List String
  | [] => []
  | v :: rest => dumps ea v :: dumpsList ea rest

/-- Serialize the value of every object entry, keeping the raw key. -/
def dumpsEntries (ea : Bool) : List (String × JValue) → List (String × String)
  | [] => []
  | (k, v) :: rest => (k, dumps ea v) :: dumpsEntries ea rest

end

/-- The entry serializer is a `map` over the entries. -/
theorem dumpsEntries_eq_map (ea : Bool) (l : List (String × JValue)) :
    dumpsEntries ea l = l.map (fun p => (p.1, dumps ea p.2)) := by
  induction l with
  | nil => rfl
  | cons h t ih =>
      cases h
      simp [dumpsEntries, ih]

/-- Two permuted entry lists with no duplicate keys have the same sorted
form: the sorted permutation of a key-distinct list is unique. -/
theorem insertionSort_perm_nodup_eq (l1 l2 : List (String × String))
    (hp : l1.Perm l2) (hn : (l1.map Prod.fst).Nodup) :
    List.insertionSort entryLE l1 = List.insertionSort entryLE l2 := by
  have hs1 : List.Sorted entryLE (List.insertionSort entryLE l1) :=
    List.sorted_insertionSort entryLE l1
  have hs2 : List.Sorted entryLE (List.insertionSort entryLE l2) :=
    List.sorted_insertionSort entryLE l2
  have hperm : (List.insertionSort entryLE l1).Perm (List.insertionSort entryLE l2) :=
    ((List.perm_insertionSort entryLE l1).trans hp).trans
      (List.perm_insertionSort entryLE l2).symm
  have hn2 : (l2.map Prod.fst).Nodup := (hp.map Prod.fst).nodup_iff.mp hn
  have hnodup1 : (List.insertionSort entryLE l1).Pairwise (fun a b => a.1 ≠ b.1) := by
    have := ((List.perm_insertionSort entryLE l1).map Prod.fst).nodup_iff.mpr hn
    exact (List.pairwise_map).mp this
  have hnodup2 : (List.insertionSort entryLE l2).Pairwise (fun a b => a.1 ≠ b.1) := by
    have := ((List.perm_insertionSort entryLE l2).map Prod.fst).nodup_iff.mpr hn2
    exact (List.pairwise_map).mp this
  have hlt1 : List.Sorted entryLT (List.insertionSort entryLE l1) :=
    (hs1.and hnodup1).imp (fun h => ⟨h.1, h.2⟩)
  have hlt2 : List.Sorted entryLT (List.insertionSort entryLE l2) :=
    (hs2.and hnodup2).imp (fun h => ⟨h.1, h.2⟩)
  exact List.eq_of_perm_of_sorted hperm hlt1 hlt2

/-- Serialization of an object does not depend on the insertion order of its
entries, provided the keys are distinct (always true of a Python dict):
`sort_keys=True` canonicalizes the order. -/
theorem dumps_obj_perm (ea : Bool) (l1 l2 : List (String × JValue))
    (hp : l1.Perm l2) (hn : (l1.map Prod.fst).Nodup) :
    dumps ea (.obj l1) = dumps ea (.obj l2) := by
  have hkeys1 : ((l1.map (fun p => (p.1, dumps ea p.2))).map Prod.fst) = l1.map Prod.fst := by
    simp [List.map_map]
  have hn1 : ((l1.map (fun p => (p.1, dumps ea p.2))).map Prod.fst).Nodup := by
    rw [hkeys1]
    exact hn
  have hsort :
      List.insertionSort entryLE (dumpsEntries ea l1) =
        List.insertionSort entryLE (dumpsEntries ea l2) := by
    rw [dumpsEntries_eq_map, dumpsEntries_eq_map]
    exact insertionSort_perm_nodup_eq _ _ (hp.map _) hn1
  simp only [dumps, hsort]

/-! ## `app/core/blockchain/notary.py` and `app/core/cache/cache.py` -/

/-- Model of `notarize(report)`: SHA-256 hexdigest of
`json.dumps(report, sort_keys=True, ensure_ascii=False)` encoded as UTF-8. -/
def notarize (report : JValue) : String :=
  sha256HexOfString (dumps false report)

/-- Model of `cache_key(value)`: SHA-256 hexdigest of the UTF-8 value. -/
def cache_key (value : String) : String :=
  sha256HexOfString value

/-! ## Python exceptions -/

/-- Exceptions raised by the embedded code. -/
inductive PyErr where
  | nameError (nm : String)
  | runtimeError (msg : String)
  | valueError (msg : String)
  | httpError (code : Nat) (detail : String)
  | externalError (msg : String)
deriving DecidableEq, Repr

/-- Model of Python `str(e)` on an exception. -/
def pyErrMessage : PyErr → String
  | .nameError nm => "name '" ++ nm ++ "' is not defined"
  | .runtimeError m => m
  | .valueError m => m
  | .httpError _ d => d
  | .externalError m => m

/-! ## `app/billing/enforcement.py` -/

/-- Model of `_normalize(value)`: `str(value or "").strip().lower()`. -/
def normalizeVal (v : Option JValue) : String :=
  pyLower (pyStrip (pyStr ((pyOr v (some (.str ""))).getD (.str ""))))

/-- The `FREE_FRAMEWORKS` set. -/
def FREE_FRAMEWORKS : List String := ["pdpa_free_scan"]

/-- The `PRO_PRODUCT_KEYS` set. -/
def PRO_PRODUCT_KEYS : List String :=
  ["pdpa_quick_scan", "pdpa_basic", "pdpa_pro", "compliance_standard",
   "compliance_pro", "supply_chain_1", "supply_chain_10", "supply_chain_50",
   "compliance_notarization_1", "compliance_notarization_10",
   "compliance_notarization_50"]

/-- Model of `resolve_tier` (`app/billing/enforcement.py`, lines 29-51).
After binding `data` and `framework_value`, the body's first comparison is
`if tier in {"enterprise", "ent", "enterprise_monthly"}` (line 33), and the
local name `tier` is never assigned anywhere in the function (nor is
`product_type`, used on line 36); at runtime Python raises
`NameError: name 'tier' is not defined` on every call, so the function
never returns normally. -/
def resolve_tier (assessment_data : Option PyDict) (framework : Option String) :
    Except PyErr String :=
  let _data := assessment_data.getD []
  let _framework_value := normalizeVal (framework.map JValue.str)
  Except.error (.nameError "tier")

/-- The `blocked_statuses` denylist of `enforce_tier`
(`app/billing/enforcement.py`, lines 64-73). -/
def BLOCKED_STATUSES : List String :=
  ["blocked", "denied", "suspended", "past_due", "canceled", "cancelled",
   "limit_reached", "disabled"]

/-- The tier/feature policy returned by `enforce_tier`. The blocked branches
return `features = {}` (an empty dict), so `features` is kept as a dict. -/
structure Policy where
  allowed : Bool
  tier : String
  paid : Bool
  reason : Option String
  features : PyDict

/-- Model of `enforce_tier` (`app/billing/enforcement.py`, lines 54-119).
Every branch calls `resolve_tier` (lines 78, 87, 93), which raises
`NameError`, so no branch reaches its `return`. -/
def enforce_tier (assessment_data : Option PyDict) (framework : Option String) :
    Except PyErr Policy :=
  let data := assessment_data.getD []
  let status_value :=
    normalizeVal
      (pyOr (dget data "access_status")
        (pyOr (dget data "subscription_status") (dget data "plan_status")))
  if BLOCKED_STATUSES.contains status_value then
    match resolve_tier (some data) framework with
    | .error e => .error e
    | .ok tier =>
        .ok ⟨false, tier, false, some ("status:" ++ status_value), []⟩
  else if pyTruthyOpt (dget data "free_limit_reached") ||
      pyTruthyOpt (dget data "plan_limit_reached") then
    match resolve_tier (some data) framework with
    | .error e => .error e
    | .ok tier => .ok ⟨false, tier, false, some "limit_reached", []⟩
  else
    match resolve_tier (some data) framework with
    | .error e => .error e
    | .ok tier =>
        let subscription_status := normalizeVal (dget data "subscription_status")
        let paid0 := pyTruthyOpt (dget data "payment_confirmed")
        let paid :=
          if subscription_status == "active" || subscription_status == "trialing"
          then true else paid0
        let isPaidTier := tier == "PRO" || tier == "ENTERPRISE"
        let allow_blockchain := paid && isPaidTier
        let allow_pdf := paid && isPaidTier
        let ai_full := isPaidTier && paid
        let features : PyDict :=
          [("ai_mode", .str (if ai_full then "full" else "light")),
           ("ai_full", .bool ai_full),
           ("pdf", .bool allow_pdf),
           ("blockchain", .bool allow_blockchain),
           ("monitoring", .bool (tier == "ENTERPRISE")),
           ("dashboard", .bool (tier == "ENTERPRISE")),
           ("multi_vendor", .bool (tier == "ENTERPRISE"))]
        .ok ⟨true, tier, paid, none, features⟩

/-! ## `app/services/access_control.py` -/

/-- Result dict of `check_access`. -/
structure AccessResult where
  allowed : Bool
  paid : Bool
  reason : Option String
deriving DecidableEq, Repr

/-- Model of `check_access` (`app/services/access_control.py`, lines 8-44).
Unlike `enforce_tier` it does not call `resolve_tier`, so it is total. -/
def check_access (assessment_data : Option PyDict) : AccessResult :=
  let data := assessment_data.getD []
  let status :=
    normalizeVal
      (pyOr (dget data "access_status")
        (pyOr (dget data "subscription_status")
          (pyOr (dget data "plan_status") (some (.str "")))))
  if BLOCKED_STATUSES.contains status then
    ⟨false, false, some ("status:" ++ status)⟩
  else if pyTruthyOpt (dget data "free_limit_reached") ||
      pyTruthyOpt (dget data "plan_limit_reached") then
    ⟨false, false, some "limit_reached"⟩
  else
    let paid0 := pyTruthyOpt (dget data "payment_confirmed")
    let plan := normalizeVal (pyOr (dget data "plan") (dget data "tier"))
    let paid1 :=
      if plan == "pro" || plan == "paid" || plan == "standard" ||
          plan == "enterprise" || plan == "business"
      then true else paid0
    let subscription_status := normalizeVal (dget data "subscription_status")
    let paid :=
      if subscription_status == "active" || subscription_status == "trialing"
      then true else paid1
    ⟨true, paid, none⟩

/-! ## `app/services/blockchain.py` — `BlockchainService`

The external Polygon ledger is modelled as an explicit state: the set of
anchored hashes (with their anchor timestamps) plus the list of submitted
write transactions. `send_raw_transaction` is modelled as appending a fresh
transaction reference and applying the `anchorHash` contract call to the
ledger state. -/

/-- External ledger state. -/
structure Ledger where
  anchored : List (String × Nat)
  txs : List String
  time : Nat

/-- Service configuration (`settings.BLOCKCHAIN_PRIVATE_KEY`). -/
structure ChainEnv where
  privateKey : String

/-- Model of `_hash_to_bytes32`: strip, lowercase, drop a `0x` prefix
(the resulting bytes are represented by their hex string). -/
def hash_to_bytes32 (evidence_hash : String) : String :=
  let hexValue := pyLower (pyStrip evidence_hash)
  if strStartsWith hexValue "0x" then strDrop hexValue 2 else hexValue

/-- Model of `get_anchor_status` (`app/services/blockchain.py`, lines
147-169): reads `isAnchored(file_hash)` from the contract and returns a dict
with keys `anchored`, `anchored_at`, `tx_confirmed` — and no `tx_hash` key. -/
def get_anchor_status (ledger : Ledger) (evidence_hash : String)
    (tx_hash : Option String) : PyDict :=
  let file_hash := hash_to_bytes32 evidence_hash
  let entry := ledger.anchored.find? (fun p => p.1 == file_hash)
  let anchored_at : JValue := match entry with | some p => .num p.2 | none => .num 0
  let tx_confirmed : JValue :=
    match tx_hash with
    | some t => .bool (ledger.txs.contains t)
    | none => .null
  [("anchored", .bool entry.isSome),
   ("anchored_at", anchored_at),
   ("tx_confirmed", tx_confirmed)]

/-- Transaction reference returned by `send_raw_transaction` for the n-th
submitted transaction (model of the signed transaction's hash). -/
def txRefOfNonce (nonce : Nat) : String := "0xtx" ++ toString nonce

/-- Model of `anchor_evidence` (`app/services/blockchain.py`, lines 77-108):
query `get_anchor_status` first; if already anchored return
`status.get("tx_hash") or "already_anchored"` without submitting; otherwise
sign and submit an `anchorHash` transaction (the model applies it to the
ledger immediately) and return its hex reference. -/
def anchor_evidence (env : ChainEnv) (ledger : Ledger) (evidence_hash : String)
    (_metadata : String) : Except PyErr (String × Ledger) :=
  let status := get_anchor_status ledger evidence_hash none
  if pyTruthyOpt (dget status "anchored") then
    let fallback : JValue :=
      (pyOr (dget status "tx_hash") (some (.str "already_anchored"))).getD .null
    .ok (pyStr fallback, ledger)
  else if env.privateKey == "" then
    .error (.runtimeError "BLOCKCHAIN_PRIVATE_KEY is not configured")
  else
    let file_hash := hash_to_bytes32 evidence_hash
    let nonce := ledger.txs.length
    let tx_hex := txRefOfNonce nonce
    .ok (tx_hex,
      ⟨(file_hash, ledger.time) :: ledger.anchored, ledger.txs ++ [tx_hex],
       ledger.time + 1⟩)

/-! ## `app/services/audit_chain.py` -/

/-- Row of the `AuditChainEvent` table. -/
structure AuditChainEvent where
  report_id : String
  action : String
  actor : String
  hash_prev : String
  hash : String
  metadata : PyDict
  created_at : Nat

/-- Database state for the audit-chain table: rows in insertion order plus a
clock supplying strictly increasing `datetime.utcnow()` values. -/
structure AuditDb where
  events : List AuditChainEvent
  clock : Nat

/-- Model of `append_audit_event` (`app/services/audit_chain.py`, lines
9-35): read the most recent event for the report (`order_by created_at
desc`, i.e. the last inserted row since timestamps increase), use its hash
as `hash_prev` or the `"GENESIS"` sentinel, and insert the new event. -/
def append_audit_event (db : AuditDb) (report_id action actor hash_value : String)
    (metadata : PyDict) : AuditChainEvent × AuditDb :=
  let previous := (db.events.filter (fun e => e.report_id == report_id)).getLast?
  let prev_hash := match previous with | some e => e.hash | none => "GENESIS"
  let event : AuditChainEvent :=
    ⟨report_id, action, actor, prev_hash, hash_value, metadata, db.clock⟩
  (event, ⟨db.events ++ [event], db.clock + 1⟩)

/-- One append request: report id, action, actor, hash, metadata. -/
structure AppendReq where
  report_id : String
  action : String
  actor : String
  hash_value : String
  metadata : PyDict

/-- Apply a sequence of `append_audit_event` calls. -/
def applyAppends (db : AuditDb) : List AppendReq → AuditDb
  | [] => db
  | r :: rest =>
      applyAppends
        (append_audit_event db r.report_id r.action r.actor r.hash_value r.metadata).2
        rest

/-- The empty audit-chain table. -/
def emptyAuditDb : AuditDb := ⟨[], 0⟩

/-- Hash of the last event of a per-report chain, or the genesis sentinel. -/
def lastHash (l : List AuditChainEvent) : String :=
  match l.getLast? with
  | some e => e.hash
  | none => "GENESIS"

/-- Adjacent events are linked: each event's `hash_prev` equals the previous
event's `hash`. -/
def chainLinked : List AuditChainEvent → Prop
  | [] => True
  | [_] => True
  | a :: b :: rest => b.hash_prev = a.hash ∧ chainLinked (b :: rest)

/-- The audit-chain invariant for one report's events in creation order:
the first event's `hash_prev` is the genesis sentinel and adjacent events
are hash-linked. -/
def chainOk (events : List AuditChainEvent) : Prop :=
  match events with
  | [] => True
  | e :: _ => e.hash_prev = "GENESIS" ∧ chainLinked events

/-! ## `app/orchestrator/engine.py` with `app/core/cache/cache.py`

The cache directory is modelled as a map from key to the stored JSON value
(`set` writes `json.dumps(value)`, `get` reads it back with `json.loads`;
the file round-trip is abstracted to storing the value itself). -/

/-- Cache state: key to stored value. -/
abbrev CacheStore := List (String × JValue)

/-- Model of `cache.get(key)`. -/
def cacheGet (store : CacheStore) (key : String) : Option JValue :=
  dget store key

/-- Model of `cache.set(key, value)`. -/
def cacheSet (store : CacheStore) (key : String) (v : JValue) : CacheStore :=
  dset store key v

/-- External-collaborator calls made by one `run(url)` invocation. -/
inductive EngineEffect where
  | scanCall (url : String)
  | aiPreviewCall
  | aiFullCall
  | anchorCall (h : String)
deriving DecidableEq, Repr

/-- Settings and collaborators of the orchestrator. -/
structure EngineEnv where
  riskThresholds : PyDict
  anchorEnabled : Bool
  runScanAsync : String → Except PyErr PyDict
  aiPreview : PyDict → Except PyErr JValue
  aiFull : PyDict → Except PyErr JValue
  anchorService : String → Except PyErr String

/-- Model of `run(url)` (`app/orchestrator/engine.py`, lines 25-62):
cache hit returns the cached result (if truthy); otherwise scan, select the
AI step by risk thresholds, notarize, conditionally anchor (errors caught
and logged), store in the cache, return. The returned effect list records
which collaborators were invoked. -/
def engine_run (env : EngineEnv) (cache : CacheStore) (url : String) :
    Except PyErr (JValue × CacheStore × List EngineEffect) :=
  let key := cache_key url
  let cachedOpt := cacheGet cache key
  if pyTruthyOpt cachedOpt then
    .ok (cachedOpt.getD .null, cache, [])
  else
    match env.runScanAsync url with
    | .error e => .error e
    | .ok scan_payload =>
        -- `_resolve_thresholds`: `int(thresholds.get(k, default))`; the
        -- configured values are integers (non-integers would raise).
        let lowT := asIntD (dget env.riskThresholds "LOW") 30
        let medT := asIntD (dget env.riskThresholds "MEDIUM") 60
        let _highT := asIntD (dget env.riskThresholds "HIGH") 100
        let risk := asIntD (dget scan_payload "overall_risk_score") 0
        let aiStep : Except PyErr (JValue × List EngineEffect) :=
          if risk < lowT then .ok (.null, [])
          else if risk < medT then
            match env.aiPreview scan_payload with
            | .error e => .error e
            | .ok r => .ok (r, [.aiPreviewCall])
          else
            match env.aiFull scan_payload with
            | .error e => .error e
            | .ok r => .ok (r, [.aiFullCall])
        match aiStep with
        | .error e => .error e
        | .ok (ai_result, aiEffs) =>
            let report0 : PyDict :=
              [("url", .str url), ("scan", .obj scan_payload), ("ai", ai_result)]
            let notary_hash := notarize (.obj report0)
            let report1 := dset report0 "notary_hash" (.str notary_hash)
            let anchorStep : JValue × List EngineEffect :=
              if env.anchorEnabled then
                match env.anchorService notary_hash with
                | .ok s => (.str s, [.anchorCall notary_hash])
                | .error _ => (.null, [.anchorCall notary_hash])
              else (.null, [])
            let report2 := dset report1 "blockchain_tx_hash" anchorStep.1
            let result := JValue.obj report2
            .ok (result, cacheSet cache key result,
              [.scanCall url] ++ aiEffs ++ anchorStep.2)

/-! ## `app/workers/tasks.py` — `process_report_workflow`

The `Report` row, the collaborator environment and the workflow body.
External collaborators (network, AI, ledger, storage, email) are oracle
fields of `WfEnv`; the policy resolver is also an `WfEnv` field so that
behavior downstream of the policy step can be stated — the source calls
`enforce_tier` there, and theorems about the deployed composition
instantiate `policy := enforce_tier`. -/

/-- The `Report` database row (the fields the workflow touches). -/
structure Report where
  id : String
  owner_id : String
  framework : String
  company_name : String
  company_website : Option String
  assessment_data : JValue
  status : String
  audit_hash : Option String
  tx_hash : Option String
  s3_url : Option String
  file_key : Option String
  ai_narrative : Option String
  ai_model_used : Option String
  created_at : String
  completed_at : Option String

/-- The report's `assessment_data` as a dict (`{}` when it is not a dict,
matching the coercion at the top of the workflow and in
`_set_assessment_values`). -/
def adOf (r : Report) : PyDict :=
  match r.assessment_data with
  | .obj l => l
  | _ => []

/-- Model of `_set_assessment_values(report, updates)`: merge `updates` into
the assessment dict (never a blind overwrite). -/
def setAssessmentValues (r : Report) (updates : PyDict) : Report :=
  { r with assessment_data := .obj (dmerge (adOf r) updates) }

/-- External calls (and waits) performed by one workflow run. -/
inductive WfEff where
  | resolveUrlCall
  | cookieCall
  | metaCall
  | aiFullCall
  | aiLightCall
  | hashComputed (h : String)
  | auditAppendCall
  | anchorCall (h : String)
  | verifyRegisterCall
  | screenshotCall
  | pdfGenCall
  | uploadAttempt (n : Nat)
  | sleepSecs (n : Nat)
  | emailCall
  | depLogCall
deriving DecidableEq, Repr

/-- Collaborator oracles and settings for one workflow run. -/
structure WfEnv where
  policy : Option PyDict → Option String → Except PyErr Policy
  resolve_website_url : Option JValue → Except PyErr PyDict
  detect_cookie_banner : Option JValue → Except PyErr PyDict
  scan_site_metadata : Option JValue → Except PyErr PyDict
  booppa_generate : JValue → Except PyErr PyDict
  format_narrative : PyDict → Except PyErr String
  ai_light_call : PyDict → Except PyErr PyDict
  anchor : String → String → Except PyErr String
  capture_screenshot : String → Option String
  thumFetch : String → Option String × Option String
  generate_pdf : PyDict → Except PyErr Nat
  upload_pdf : Nat → Except PyErr String
  send_email : Except PyErr Unit
  register_verify : Except PyErr PyDict
  log_dep : Except PyErr PyDict
  skip_pdf_generation : Bool
  verify_base_url : String
  now : String
  today : String

/-- Workflow state: the report row, the audit-chain table and the effect
trace of the run. -/
structure WfSt where
  report : Report
  auditDb : AuditDb
  trace : List WfEff

/-- Strip trailing slashes (model of `str.rstrip("/")`). -/
def rstripSlashes (s : String) : String :=
  String.mk (((s.data.reverse).dropWhile (fun c => c == '/')).reverse)

/-- Screenshot fallback chain (`app/workers/tasks.py`, lines 540-601 and
796-855): primary capture, then the thum.io fallback, then an error marker;
every failure is non-fatal. Returns the updated report. -/
def screenshotStep (env : WfEnv) (r : Report) : Report :=
  let existing := dget (adOf r) "site_screenshot"
  if pyTruthyOpt existing then r
  else
    let url0 := pyOr (dget (adOf r) "url") (r.company_website.map .str)
    match url0 with
    | some (.str u) =>
        if u == "" then r
        else
          let lu := pyLower u
          let u2 :=
            if !(strStartsWith lu "http://" || strStartsWith lu "https://")
            then "https://" ++ u else u
          match env.capture_screenshot u2 with
          | some b => setAssessmentValues r [("site_screenshot", .str b)]
          | none =>
              match env.thumFetch u2 with
              | (some b, _) => setAssessmentValues r [("site_screenshot", .str b)]
              | (none, err) =>
                  setAssessmentValues r
                    [("screenshot_error",
                      .str (match err with
                            | some m => if m == "" then "capture_failed_or_timeout" else m
                            | none => "capture_failed_or_timeout")),
                     ("screenshot_url", .str u2)]
    | _ => r

/-- The S3 upload loop (`app/workers/tasks.py`, lines 877-907): for each
attempt, try the upload; on success persist the URL, mark the report
completed and stop; on failure of the final attempt re-raise; otherwise
sleep `min(10, 2**attempt)` seconds and continue. -/
def s3Loop (env : WfEnv) : List Nat → Report → List WfEff →
    Report × List WfEff × Except PyErr String
  | [], r, trace => (r, trace, .error (.runtimeError "loop exhausted"))
  | a :: rest, r, trace =>
      match env.upload_pdf a with
      | .ok url =>
          let r := { r with s3_url := some url,
                            file_key := some ("reports/" ++ r.id ++ ".pdf") }
          let r := setAssessmentValues r
            [("s3_uploaded", .bool true), ("s3_uploaded_at", .str env.now)]
          let r := { r with status := "completed", completed_at := some env.now }
          (r, trace ++ [.uploadAttempt a], .ok url)
      | .error e =>
          if rest.isEmpty then (r, trace ++ [.uploadAttempt a], .error e)
          else
            s3Loop env rest r
              (trace ++ [.uploadAttempt a, .sleepSecs (min 10 (2 ^ a))])

/-- Notification attempt (`app/workers/tasks.py`, lines 620-638, 708-726,
909-928): looked-up recipient, best-effort send, failures logged only.
Returns the trace extended when a send was attempted. -/
def emailStep (r : Report) (trace : List WfEff) : List WfEff :=
  let to_email :=
    pyOr (dget (adOf r) "contact_email") (dget (adOf r) "customer_email")
  if pyTruthyOpt to_email then trace ++ [.emailCall] else trace

/-- Dependency-log step (`log_dependency_event` plus merge; failures roll
back, leaving the report unchanged). -/
def depLogStep (env : WfEnv) (r : Report) : Report :=
  match env.log_dep with
  | .ok updates => setAssessmentValues r updates
  | .error _ => r

/-- Option-to-JValue helper for nullable strings. -/
def jOfOptStr : Option String → JValue
  | some s => .str s
  | none => .null

/-- The canonical evidence payload (`app/workers/tasks.py`, lines 466-473):
report id, framework, company, the current `assessment_data` snapshot, the
narrative and the report's creation timestamp. -/
def evidencePayload (id framework company : String) (assessment : JValue)
    (narrative created_at : String) : JValue :=
  .obj [("report_id", .str id),
        ("framework", .str framework),
        ("company", .str company),
        ("assessment_data", assessment),
        ("ai_narrative", .str narrative),
        ("timestamp", .str created_at)]

/-- The evidence digest (`app/workers/tasks.py`, lines 475-476):
SHA-256 hexdigest of `json.dumps(evidence_data, sort_keys=True)` in UTF-8. -/
def evidenceHashOf (id framework company : String) (assessment : JValue)
    (narrative created_at : String) : String :=
  sha256HexOfString
    (dumps true (evidencePayload id framework company assessment narrative
      created_at))

/-- PDF payload assembly (`app/workers/tasks.py`, lines 749-794). -/
def buildPdfData (policy : Policy) (structured : Option PyDict)
    (narrative evidence_hash verify_url : String) (txv : Option String)
    (payment_confirmed : Bool) (r : Report) : PyDict :=
  [("report_id", .str r.id),
   ("framework", .str r.framework),
   ("company_name", .str r.company_name),
   ("created_at", .str r.created_at),
   ("status", .str "completed"),
   ("tx_hash", jOfOptStr txv),
   ("audit_hash", .str evidence_hash),
   ("ai_narrative", .str narrative),
   ("structured_report",
     match structured with | some d => .obj d | none => .null),
   ("payment_confirmed", .bool payment_confirmed),
   ("tier", .str policy.tier),
   ("proof_header",
     (pyOr (dget (adOf r) "proof_header")
       (if payment_confirmed then some (.str "BOOPPA-PROOF-SG")
        else none)).getD .null),
   ("schema_version",
     (pyOr (dget (adOf r) "schema_version")
       (if payment_confirmed then some (.str "1.0")
        else none)).getD .null),
   ("verify_url",
     (pyOr (dget (adOf r) "verify_url")
       (if payment_confirmed then some (.str verify_url)
        else none)).getD .null),
   ("contact_email", (dget (adOf r) "contact_email").getD .null),
   ("base_url",
     if pyTruthyOpt (dget (adOf r) "base_url")
     then (dget (adOf r) "base_url").getD .null
     else .str "https://www.booppa.io")]

/-- Second best-effort capture for the PDF (`app/workers/tasks.py`, lines
796-855): `pdf_data` never carries `site_screenshot` when built, so this
block always runs; unlike the first block it does not prefix a scheme. -/
def screenshotForPdf (env : WfEnv) (r : Report) : Report × Option String :=
  let shotArg := pyOr (dget (adOf r) "url") (r.company_website.map .str)
  match shotArg with
  | some (.str u) =>
      if u == "" then (r, none)
      else
        match env.capture_screenshot u with
        | some b => (setAssessmentValues r [("site_screenshot", .str b)], some b)
        | none =>
            match env.thumFetch u with
            | (some b, _) =>
                (setAssessmentValues r [("site_screenshot", .str b)], some b)
            | (none, err) =>
                (setAssessmentValues r
                  [("screenshot_error",
                    .str (match err with
                          | some m =>
                              if m == "" then "capture_failed_or_timeout" else m
                          | none => "capture_failed_or_timeout")),
                   ("screenshot_url", .str u)], none)
  | _ => (r, none)

/-- Paid-PDF phase (`app/workers/tasks.py`, lines 749-958): assemble the PDF
payload, second screenshot attempt, render (fatal on failure), upload with
bounded retry (fatal after 3 attempts), then notify and complete. -/
def wfPdfPhase (env : WfEnv) (policy : Policy) (structured : Option PyDict)
    (narrative evidence_hash verify_url : String) (txv : Option String)
    (r : Report) (db : AuditDb) (trace : List WfEff) :
    WfSt × Except PyErr PyDict :=
  let payment_confirmed := policy.paid
  let pdf_data :=
    buildPdfData policy structured narrative evidence_hash verify_url txv
      payment_confirmed r
  let shot := screenshotForPdf env r
  let r := shot.1
  let trace := trace ++ [.screenshotCall]
  let pdf_data2 :=
    match shot.2 with
    | some b => dset pdf_data "site_screenshot" (.str b)
    | none => pdf_data
  -- lines 857-875: render the PDF; failure re-raises (fatal)
  let trace := trace ++ [.pdfGenCall]
  match env.generate_pdf pdf_data2 with
  | .error e => (⟨r, db, trace⟩, .error e)
  | .ok _bytes =>
      let r := setAssessmentValues r
        [("pdf_generated", .bool true), ("pdf_generated_at", .str env.now)]
      -- lines 877-907: upload with bounded retry
      let loopOut := s3Loop env [1, 2, 3] r trace
      let r := loopOut.1
      let trace := loopOut.2.1
      match loopOut.2.2 with
      | .error e => (⟨r, db, trace⟩, .error e)
      | .ok pdf_url =>
          -- lines 909-951: notify, defensive completion, log
          let trace := emailStep r trace
          let r :=
            if r.status != "completed"
            then { r with status := "completed", completed_at := some env.now }
            else r
          let r := depLogStep env r
          (⟨r, db, trace ++ [.depLogCall]⟩,
           .ok [("status", .str "completed"),
                ("report_id", .str r.id),
                ("pdf_url", .str pdf_url),
                ("tx_hash", jOfOptStr txv)])

/-- Verification metadata, first screenshot and the three completion
short-cuts (`app/workers/tasks.py`, lines 510-747), then the PDF phase. -/
def wfVerifyPhase (env : WfEnv) (policy : Policy) (structured : Option PyDict)
    (narrative evidence_hash : String) (txv : Option String)
    (r : Report) (db : AuditDb) (trace : List WfEff) :
    WfSt × Except PyErr PyDict :=
  let features := policy.features
  let payment_confirmed := policy.paid
  -- lines 510-525: verification URL and proof header (paid PDF)
  let verify_url := rstripSlashes env.verify_base_url ++ "/" ++ evidence_hash
  let pdfPaid := pyTruthyOpt (dget features "pdf") && payment_confirmed
  let r :=
    if pdfPaid then
      setAssessmentValues r
        [("verify_url", .str verify_url),
         ("proof_header", .str "BOOPPA-PROOF-SG"),
         ("schema_version", .str "1.0")]
    else r
  -- lines 527-537: verification registry (non-fatal)
  let regOut : Report × List WfEff :=
    if pdfPaid then
      (match env.register_verify with
       | .ok upd => setAssessmentValues r upd
       | .error _ => r,
       trace ++ [.verifyRegisterCall])
    else (r, trace)
  let r := regOut.1
  let trace := regOut.2
  -- lines 539-601: best-effort screenshot for the on-page report
  let r := screenshotStep env r
  let trace := trace ++ [.screenshotCall]
  -- lines 603-659: free-tier completion without a PDF
  if !pyTruthyOpt (dget features "pdf") then
    let r := setAssessmentValues r
      [("pdf_generated", .bool false),
       ("pdf_reason", .str "tier_restriction")]
    let r := { r with status := "completed", completed_at := some env.now }
    let trace := emailStep r trace
    let r := depLogStep env r
    (⟨r, db, trace ++ [.depLogCall]⟩,
     .ok [("status", .str "completed"), ("report_id", .str r.id),
          ("pdf_url", .null), ("tx_hash", jOfOptStr txv)])
  -- lines 660-685: on-page-only completion
  else if pyTruthyOpt (dget (adOf r) "on_page_only") then
    let r := setAssessmentValues r [("on_page_ready", .bool true)]
    let r := { r with status := "completed", completed_at := some env.now }
    let r := depLogStep env r
    (⟨r, db, trace ++ [.depLogCall]⟩,
     .ok [("status", .str "completed"), ("report_id", .str r.id),
          ("pdf_url", .null), ("tx_hash", jOfOptStr txv)])
  -- lines 689-747: SKIP_PDF_GENERATION
  else if env.skip_pdf_generation then
    let r := { r with s3_url := none, file_key := none,
                      status := "completed", completed_at := some env.now }
    let r := setAssessmentValues r
      [("pdf_generated", .bool false), ("s3_uploaded", .bool false)]
    let trace := emailStep r trace
    let r := depLogStep env r
    (⟨r, db, trace ++ [.depLogCall]⟩,
     .ok [("status", .str "completed"), ("report_id", .str r.id),
          ("pdf_url", .null), ("tx_hash", jOfOptStr txv)])
  else
    wfPdfPhase env policy structured narrative evidence_hash verify_url txv
      r db trace

/-- Evidence digest, audit-chain append and the anchoring step
(`app/workers/tasks.py`, lines 464-508). The anchor call is NOT wrapped in
try/except: an anchoring error escapes to the catch-all handler. -/
def wfHashPhase (env : WfEnv) (policy : Policy) (structured : Option PyDict)
    (narrative : String) (r : Report) (db0 : AuditDb) (trace : List WfEff) :
    WfSt × Except PyErr PyDict :=
  let features := policy.features
  -- lines 464-478: evidence hash over the canonical payload
  let evidence_hash :=
    evidenceHashOf r.id r.framework r.company_name r.assessment_data narrative
      r.created_at
  let r := { r with audit_hash := some evidence_hash }
  let trace := trace ++ [.hashComputed evidence_hash]
  -- lines 480-492: audit-chain append (pure in the model)
  let db := (append_audit_event db0 r.id "report_hash_created"
    r.owner_id evidence_hash [("framework", .str r.framework)]).2
  let trace := trace ++ [.auditAppendCall]
  -- lines 494-508: anchor when `features.blockchain` and paid
  let payment_confirmed := policy.paid
  if pyTruthyOpt (dget features "blockchain") && payment_confirmed then
    match env.anchor evidence_hash ("report:" ++ r.id) with
    | .error e => (⟨r, db, trace ++ [.anchorCall evidence_hash]⟩, .error e)
    | .ok tx =>
        wfVerifyPhase env policy structured narrative evidence_hash (some tx)
          { r with tx_hash := some tx } db (trace ++ [.anchorCall evidence_hash])
  else
    wfVerifyPhase env policy structured narrative evidence_hash none
      { r with tx_hash := none } db trace

/-- Narrative generation (`app/workers/tasks.py`, lines 388-462): the full
generator when `features.ai_full`, else the light generator; generator
failures are not caught and abort the run. -/
def wfNarrativePhase (env : WfEnv) (policy : Policy) (r : Report)
    (db : AuditDb) (trace : List WfEff) : WfSt × Except PyErr PyDict :=
  let features := policy.features
  if pyTruthyOpt (dget features "ai_full") then
    match env.booppa_generate r.assessment_data with
    | .error e => (⟨r, db, trace ++ [.aiFullCall]⟩, .error e)
    | .ok structured =>
        let narrative :=
          match env.format_narrative structured with
          | .ok s => s
          | .error _ =>
              pyStr ((pyOr (dget structured "executive_summary")
                (some (.str ""))).getD (.str ""))
        let model_used :=
          match dget structured "report_metadata" with
          | some (.obj md) =>
              match dget md "ai_model" with
              | some v => pyStr v
              | none => "Booppa"
          | _ => "Booppa"
        let r := { r with ai_model_used := some model_used }
        let r := setAssessmentValues r
          [("booppa_report", .obj structured),
           ("booppa_report_saved_at", .str env.now)]
        let r := { r with ai_narrative := some narrative }
        wfHashPhase env policy (some structured) narrative r db
          (trace ++ [.aiFullCall])
  else
    let url_value := dget (adOf r) "url"
    let light_payload : PyDict :=
      [("company_name", .str r.company_name),
       ("url", (pyOr url_value (r.company_website.map .str)).getD .null),
       ("scan_date", .str env.today),
       ("detected_laws", (dget (adOf r) "detected_laws").getD (.arr [])),
       ("overall_risk_score", (dget (adOf r) "overall_risk_score").getD .null),
       ("uses_https", (dget (adOf r) "uses_https").getD (.bool true))]
    match env.ai_light_call light_payload with
    | .error e => (⟨r, db, trace ++ [.aiLightCall]⟩, .error e)
    | .ok light =>
        let recDefault := (dget light "recommendation").getD (.str "")
        let narrative :=
          pyStr ((pyOr (dget light "summary") (some recDefault)).getD (.str ""))
        let r := { r with ai_model_used := some "Booppa Light" }
        let r := setAssessmentValues r
          [("light_ai_report", .obj light),
           ("light_ai_saved_at", .str env.now)]
        let r := { r with ai_narrative := some narrative }
        wfHashPhase env policy none narrative r db (trace ++ [.aiLightCall])

/-- URL resolution, cookie-banner detection and site-metadata scan
(`app/workers/tasks.py`, lines 338-386; all three are non-fatal). -/
def wfScanPhase (env : WfEnv) (policy : Policy) (r : Report) (db : AuditDb)
    (trace : List WfEff) : WfSt × Except PyErr PyDict :=
  -- lines 338-362: resolve the website URL
  let urlArg := pyOr (dget (adOf r) "url") (r.company_website.map .str)
  let r :=
    match env.resolve_website_url urlArg with
    | .ok result =>
        let upd1 :=
          match dget result "resolved_url" with
          | some v => if pyTruthy v then [("url", v), ("resolved_url", v)] else []
          | none => []
        let upd2 :=
          match dget result "uses_https" with
          | some v => [("uses_https", .bool (pyTruthy v))]
          | none => []
        let upd3 :=
          match dget result "http_status" with
          | some v => [("http_status", v)]
          | none => []
        let upd4 :=
          if pyTruthyOpt (dget result "resolution_error")
          then [("url_resolution_error", (dget result "resolution_error").getD .null)]
          else []
        let updates := upd1 ++ upd2 ++ upd3 ++ upd4
        if updates.isEmpty then r else setAssessmentValues r updates
    | .error _ => r
  let trace := trace ++ [.resolveUrlCall]
  -- lines 364-374: cookie-banner detection
  let cookieArg := pyOr (dget (adOf r) "resolved_url") (dget (adOf r) "url")
  let r :=
    match env.detect_cookie_banner cookieArg with
    | .ok result => if result.isEmpty then r else setAssessmentValues r result
    | .error _ => r
  let trace := trace ++ [.cookieCall]
  -- lines 376-386: site-metadata scan
  let metaArg := pyOr (dget (adOf r) "resolved_url") (dget (adOf r) "url")
  let r :=
    match env.scan_site_metadata metaArg with
    | .ok result => if result.isEmpty then r else setAssessmentValues r result
    | .error _ => r
  let trace := trace ++ [.metaCall]
  wfNarrativePhase env policy r db trace

/-- The body of `process_report_workflow` (`app/workers/tasks.py`, lines
269-958), before the enclosing `except Exception` handler: policy
resolution, the blocked short-cut, then the scan/narrative/hash/anchor/
render phases. Returns the final state plus either the returned result dict
or the escaping exception. -/
def wfBody (env : WfEnv) (st0 : WfSt) : WfSt × Except PyErr PyDict :=
  let r := st0.report
  -- lines 278-284: coerce assessment_data to a dict
  let ad := adOf r
  -- line 286: `policy = enforce_tier(ad, report.framework)` (seam `env.policy`)
  match env.policy (some ad) (some r.framework) with
  | .error e => (st0, .error e)
  | .ok policy =>
    let features := policy.features
    -- lines 288-302: record the access decision
    let r := setAssessmentValues r
      [("access_checked_at", .str env.now),
       ("access_allowed", .bool policy.allowed),
       ("access_paid", .bool policy.paid),
       ("access_reason", match policy.reason with | some s => .str s | none => .null),
       ("tier", .str policy.tier),
       ("tier_features", .obj features)]
    if !policy.allowed then
      -- lines 304-336: persist `blocked` and stop
      let r := { r with status := "blocked", completed_at := some env.now }
      let r := setAssessmentValues r
        [("access_blocked", .bool true), ("access_blocked_at", .str env.now)]
      let r := depLogStep env r
      (⟨r, st0.auditDb, st0.trace ++ [.depLogCall]⟩,
       .ok [("status", .str "blocked"), ("report_id", .str r.id),
            ("reason", match policy.reason with | some s => .str s | none => .null)])
    else
      wfScanPhase env policy r st0.auditDb st0.trace
def process_report_workflow (env : WfEnv) (db : AuditDb) (r : Report) :
    WfSt × Except PyErr PyDict :=
  let (st, res) := wfBody env ⟨r, db, []⟩
  match res with
  | .ok payload => (st, .ok payload)
  | .error e =>
      let rep := st.report
      let assessment := adOf rep
      let assessment := dset assessment "last_processing_error"
        (.str (strTake (pyErrMessage e) 500))
      let assessment := dset assessment "last_processing_error_at" (.str env.now)
      let rep := { rep with assessment_data := .obj assessment, status := "failed" }
      (⟨rep, st.auditDb, st.trace⟩, .error e)

/-! ## `app/api/reports.py` — the polling re-trigger guard -/

/-- Attempt ceiling (`app/api/reports.py`, line 26). -/
def MAX_PROCESSING_ATTEMPTS : Nat := 3

/-- Cool-down window in seconds (`app/api/reports.py`, line 27). -/
def PROCESSING_RETRY_WINDOW_SECONDS : Nat := 600

/-- Model of `datetime.fromisoformat` on the timestamp strings this model
stores (decimal seconds); a malformed string parses to `None`. -/
def fromIso (s : String) : Option Nat := strToNatQ s

/-- Outcome of the unready-report branch of `get_report_by_session`. -/
structure PollResult where
  assessment : PyDict
  set_processing : Bool
  background_scheduled : Bool
  forced_run : Bool
  rate_limited_internally : Bool
  response_code : Nat
  response_detail : String

/-- Model of the on-demand re-trigger branch of `get_report_by_session`
(`app/api/reports.py`, lines 426-532) for a report that is not ready.

When the attempt ceiling or the cool-down window is violated the guard
raises `HTTPException(429)` (lines 447-457); the inner handler re-raises it
(lines 463-464), but the enclosing `try` of line 429 ends in
`except Exception` (line 486), which catches the `HTTPException` and only
logs it, so the caller never receives the 429: control continues at line
491, where `force=true` still runs the workflow, and the handler finally
raises `HTTPException(404, "Report not ready")` (line 532).
`rate_limited_internally` records that the swallowed 429 was raised. -/
def poll_unready_trigger (assessment : PyDict) (now : Nat) (force : Bool) :
    PollResult :=
  let attempts := asIntD (dget assessment "processing_attempts") 0
  let last_dt : Option Nat :=
    match dget assessment "last_processing_attempt_at" with
    | some (.str s) => fromIso s
    | _ => none
  if attempts ≥ (MAX_PROCESSING_ATTEMPTS : Int) then
    ⟨assessment, false, false, force, true, 404, "Report not ready"⟩
  else if (match last_dt with
           | some t => decide (((now : Int) - t) < (PROCESSING_RETRY_WINDOW_SECONDS : Int))
           | none => false) = true then
    ⟨assessment, false, false, force, true, 404, "Report not ready"⟩
  else
    let a2 := dset assessment "processing_attempts" (.num (attempts + 1))
    let a2 := dset a2 "last_processing_attempt_at" (.str (toString now))
    ⟨a2, true, true, force, false, 404, "Report not ready"⟩

/-! ## Concrete scenarios used by the theorems below -/

/-- A benign collaborator environment: every oracle succeeds with a minimal
value. Individual scenarios override single fields. -/
def baseEnv : WfEnv :=
  { policy := fun _ _ => .ok ⟨true, "FREE", false, none, []⟩,
    resolve_website_url := fun _ => .ok [],
    detect_cookie_banner := fun _ => .ok [],
    scan_site_metadata := fun _ => .ok [],
    booppa_generate := fun _ => .ok [],
    format_narrative := fun _ => .ok "",
    ai_light_call := fun _ => .ok [],
    anchor := fun _ _ => .ok "0xtxA",
    capture_screenshot := fun _ => none,
    thumFetch := fun _ => (none, none),
    generate_pdf := fun _ => .ok 0,
    upload_pdf := fun _ => .ok "https://s3.example/r.pdf",
    send_email := .ok (),
    register_verify := .ok [],
    log_dep := .ok [],
    skip_pdf_generation := false,
    verify_base_url := "https://v.example/",
    now := "100",
    today := "2026-01-01" }

/-- A report whose `assessment_data` carries `access_status="suspended"`
(Scenario C input). -/
def rSuspended : Report :=
  ⟨"r1", "o1", "pdpa_free_scan", "Co", none,
   .obj [("access_status", .str "suspended")], "processing",
   none, none, none, none, none, none, "50", none⟩

/-- A minimal report with an empty assessment map. -/
def rMinimal : Report :=
  ⟨"r1", "o1", "f", "Co", none, .obj [], "processing",
   none, none, none, none, none, none, "50", none⟩

/-- The policy `enforce_tier` would produce for a payment-confirmed PRO
report, had `resolve_tier` not raised (features from
`app/billing/enforcement.py`, lines 99-111 with `tier=PRO`, `paid=True`). -/
def paidProPolicy : Policy :=
  ⟨true, "PRO", true, none,
   [("ai_mode", .str "full"), ("ai_full", .bool true), ("pdf", .bool true),
    ("blockchain", .bool true), ("monitoring", .bool false),
    ("dashboard", .bool false), ("multi_vendor", .bool false)]⟩

/-- Environment for Scenario D: paid PRO policy, ledger anchoring raises. -/
def anchorFailEnv (e : PyErr) : WfEnv :=
  { baseEnv with policy := fun _ _ => .ok paidProPolicy,
                 anchor := fun _ _ => .error e }

/-- A paid policy granting only the `pdf` feature (no anchoring, light
narrative), used to exercise the render/store phase in isolation. -/
def pdfOnlyPolicy : Policy := ⟨true, "PRO", true, none, [("pdf", .bool true)]⟩

/-- Environment for Scenario E: paid PRO policy, every S3 upload attempt
raises. -/
def uploadFailEnv (e : PyErr) : WfEnv :=
  { baseEnv with policy := fun _ _ => .ok paidProPolicy,
                 upload_pdf := fun _ => .error e }

/-- Orchestrator environment for the cache theorems: scanner returns an
empty payload, thresholds default, anchoring disabled. -/
def quietEngineEnv : EngineEnv :=
  ⟨[], false, fun _ => .ok [], fun _ => .ok .null, fun _ => .ok .null,
   fun _ => .error (.externalError "anchor disabled")⟩

/-! ## Dictionary lemmas -/

theorem dget_dset_self (d : PyDict) (k : String) (v : JValue) :
    dget (dset d k v) k = some v := by
  induction d with
  | nil => simp [dget, dset]
  | cons h t ih =>
      obtain ⟨k0, v0⟩ := h
      by_cases hk : (k0 == k) = true
      · simp [dget, dset, hk]
      · simp [dget, dset, hk, ih]

theorem dget_dset_ne (d : PyDict) (k : String) (v : JValue) (k2 : String)
    (hne : k2 ≠ k) : dget (dset d k v) k2 = dget d k2 := by
  have hkk2 : (k == k2) = false :=
    beq_eq_false_iff_ne.mpr (fun h => hne h.symm)
  induction d with
  | nil => simp [dget, dset, hkk2]
  | cons h t ih =>
      obtain ⟨k0, v0⟩ := h
      by_cases hk : (k0 == k) = true
      · have hk0 : k0 = k := by simpa using hk
        subst hk0
        simp [dget, dset, hkk2]
      · by_cases hk2 : (k0 == k2) = true
        · simp [dget, dset, hk, hk2]
        · simp [dget, dset, hk, hk2, ih]

theorem dset_ne_nil (d : PyDict) (k : String) (v : JValue) :
    dset d k v ≠ [] := by
  cases d with
  | nil => simp [dset]
  | cons h t =>
      obtain ⟨k0, v0⟩ := h
      by_cases hk : k0 == k <;> simp [dset, hk]

/-! ## Claim theorems -/

/-- Shared fact: `resolve_tier` raises `NameError` on every input, so
`enforce_tier` propagates it on every input and never returns a policy. -/
theorem enforce_tier_raises (d : Option PyDict) (f : Option String) :
    enforce_tier d f = .error (.nameError "tier") := by
  simp [enforce_tier, resolve_tier]

/-- C2: the claim quantifies over inputs "for which the policy resolver
returns a policy with paid=false and allowed=true"; on the code as written
there is no such input: `resolve_tier` reads the unbound local `tier`
(`app/billing/enforcement.py`, line 33), so `enforce_tier` raises
`NameError: name 'tier' is not defined` for every assessment map and
framework and never returns any policy (the feature-monotonicity property
is therefore vacuous on the code). -/
theorem C2_policy_resolver_never_returns_a_policy
    (d : Option PyDict) (f : Option String) :
    enforce_tier d f = .error (.nameError "tier") :=
  enforce_tier_raises d f

/-- C10: the `check_access` denylist contains the double-l spelling
`"cancelled"`: any assessment map whose effective status field (the
`access_status` / `subscription_status` / `plan_status` alias chain) is
`"cancelled"` is denied with `allowed=false`, `paid=false`,
`reason="status:cancelled"`, and `enforce_tier`'s `blocked_statuses` set
contains the same string. -/
theorem C10_cancelled_denylisted (d : PyDict)
    (h : dget d "access_status" = some (.str "cancelled") ∨
         (pyTruthyOpt (dget d "access_status") = false ∧
          dget d "subscription_status" = some (.str "cancelled")) ∨
         (pyTruthyOpt (dget d "access_status") = false ∧
          pyTruthyOpt (dget d "subscription_status") = false ∧
          dget d "plan_status" = some (.str "cancelled"))) :
    check_access (some d) = ⟨false, false, some "status:cancelled"⟩ ∧
    "cancelled" ∈ BLOCKED_STATUSES := by
  refine ⟨?_, by decide⟩
  have hchain :
      pyOr (dget d "access_status")
        (pyOr (dget d "subscription_status")
          (pyOr (dget d "plan_status") (some (.str "")))) =
        some (.str "cancelled") := by
    rcases h with h1 | ⟨h0, h1⟩ | ⟨h0, h0b, h1⟩
    · simp [pyOr, h1, pyTruthyOpt, pyTruthy]
    · simp only [pyOr, h1]
      rw [h0]
      simp [pyTruthyOpt, pyTruthy]
    · simp only [pyOr, h1]
      rw [h0, h0b]
      simp [pyTruthyOpt, pyTruthy]
  have hs :
      normalizeVal
        (pyOr (dget d "access_status")
          (pyOr (dget d "subscription_status")
            (pyOr (dget d "plan_status") (some (.str ""))))) = "cancelled" := by
    rw [hchain]
    decide
  simp only [check_access, Option.getD_some, hs]
  norm_num [BLOCKED_STATUSES]
  decide

/-- Witness for C10 at a concrete assessment map. -/
theorem C10_cancelled_denylisted_witness :
    dget [("access_status", JValue.str "cancelled")] "access_status" =
      some (.str "cancelled") ∧
    (check_access (some [("access_status", JValue.str "cancelled")]) =
      ⟨false, false, some "status:cancelled"⟩ ∧
     "cancelled" ∈ BLOCKED_STATUSES) :=
  ⟨rfl, C10_cancelled_denylisted [("access_status", JValue.str "cancelled")]
    (Or.inl rfl)⟩

set_option linter.unnecessarySeqFocus false in
/-- Shared fact about the catch-all handler (`app/workers/tasks.py`, lines
960-978): whenever the body escapes with an exception, the workflow returns
that exception, persists status `failed`, records the truncated error text
in `last_processing_error`, and leaves the body's trace and the report's
`tx_hash` / `s3_url` as the body left them. -/
theorem pw_of_body_error (env : WfEnv) (db : AuditDb) (r : Report) (e : PyErr)
    (hres : (wfBody env ⟨r, db, []⟩).2 = .error e) :
    (process_report_workflow env db r).2 = .error e ∧
    (process_report_workflow env db r).1.report.status = "failed" ∧
    (process_report_workflow env db r).1.trace = (wfBody env ⟨r, db, []⟩).1.trace ∧
    (process_report_workflow env db r).1.report.tx_hash =
      (wfBody env ⟨r, db, []⟩).1.report.tx_hash ∧
    (process_report_workflow env db r).1.report.s3_url =
      (wfBody env ⟨r, db, []⟩).1.report.s3_url ∧
    dget (adOf (process_report_workflow env db r).1.report)
      "last_processing_error" = some (.str (strTake (pyErrMessage e) 500)) := by
  have hsplit : wfBody env ⟨r, db, []⟩ = ((wfBody env ⟨r, db, []⟩).1, .error e) := by
    rw [← hres]
  refine ⟨?_, ?_, ?_, ?_, ?_, ?_⟩ <;>
    (simp only [process_report_workflow]; rw [hsplit]) <;>
    dsimp only [adOf]
  rw [dget_dset_ne _ _ _ _ (by decide), dget_dset_self]

/-- C1: the claim says a report with `access_status="suspended"` is
immediately persisted as `blocked` with reason `"status:suspended"`. On the
code as written this cannot happen: the workflow's policy step calls
`enforce_tier` (`app/workers/tasks.py`, line 286), which raises `NameError`
from `resolve_tier`'s unbound `tier` before the blocked branch can return,
so the catch-all handler persists status `failed` with the `NameError`
text in `last_processing_error`. No scan, narrative, anchoring or rendering
work happens (the effect trace is empty), but the terminal state is
`failed`, not `blocked`. -/
theorem C1_suspended_report_ends_failed_not_blocked
    (env : WfEnv) (db : AuditDb) (r : Report)
    (_h : dget (adOf r) "access_status" = some (.str "suspended")) :
    (process_report_workflow { env with policy := enforce_tier } db r).1.report.status =
      "failed" ∧
    (process_report_workflow { env with policy := enforce_tier } db r).1.trace = [] ∧
    (process_report_workflow { env with policy := enforce_tier } db r).2 =
      .error (.nameError "tier") ∧
    dget (adOf (process_report_workflow { env with policy := enforce_tier } db r).1.report)
      "last_processing_error" = some (.str "name 'tier' is not defined") := by
  have hbody :
      wfBody { env with policy := enforce_tier } ⟨r, db, []⟩ =
        (⟨r, db, []⟩, .error (.nameError "tier")) := by
    simp [wfBody, enforce_tier_raises]
  refine ⟨?_, ?_, ?_, ?_⟩
  · simp [process_report_workflow, hbody]
  · simp [process_report_workflow, hbody]
  · simp [process_report_workflow, hbody]
  · simp only [process_report_workflow, hbody, adOf]
    rw [dget_dset_ne _ _ _ _ (by decide), dget_dset_self]
    rfl

/-- Witness for C1 at the concrete suspended report. -/
theorem C1_suspended_report_ends_failed_not_blocked_witness :
    dget (adOf rSuspended) "access_status" = some (.str "suspended") ∧
    ((process_report_workflow { baseEnv with policy := enforce_tier }
        emptyAuditDb rSuspended).1.report.status = "failed" ∧
     (process_report_workflow { baseEnv with policy := enforce_tier }
        emptyAuditDb rSuspended).1.trace = [] ∧
     (process_report_workflow { baseEnv with policy := enforce_tier }
        emptyAuditDb rSuspended).2 = .error (.nameError "tier") ∧
     dget (adOf (process_report_workflow { baseEnv with policy := enforce_tier }
        emptyAuditDb rSuspended).1.report) "last_processing_error" =
       some (.str "name 'tier' is not defined")) :=
  ⟨rfl, C1_suspended_report_ends_failed_not_blocked baseEnv emptyAuditDb
    rSuspended rfl⟩

set_option maxHeartbeats 4000000 in
/-- C3: the claim says an anchoring error is non-fatal (run completes,
anchor-error marker recorded). In the code the anchor call at
`app/workers/tasks.py`, line 502 is not wrapped in try/except, so for any
anchoring error the exception escapes to the catch-all handler: the run
ends `failed` (never `completed`) with the error in
`last_processing_error`, `tx_hash` stays unset, no anchor-error marker is
written, and the effect trace stops at the anchor call (no screenshot,
render or upload steps run). -/
theorem C3_anchor_error_aborts_run (e : PyErr) :
    (process_report_workflow (anchorFailEnv e) emptyAuditDb rMinimal).2 = .error e ∧
    (process_report_workflow (anchorFailEnv e) emptyAuditDb rMinimal).1.report.status =
      "failed" ∧
    (process_report_workflow (anchorFailEnv e) emptyAuditDb rMinimal).1.report.tx_hash =
      none ∧
    dget (adOf (process_report_workflow (anchorFailEnv e) emptyAuditDb
        rMinimal).1.report) "last_processing_error" =
      some (.str (strTake (pyErrMessage e) 500)) ∧
    (∃ h, (process_report_workflow (anchorFailEnv e) emptyAuditDb rMinimal).1.trace =
      [.resolveUrlCall, .cookieCall, .metaCall, .aiFullCall, .hashComputed h,
       .auditAppendCall, .anchorCall h]) := by
  have hres : (wfBody (anchorFailEnv e) ⟨rMinimal, emptyAuditDb, []⟩).2 = .error e :=
    rfl
  obtain ⟨h1, h2, h3, h4, _h5, h6⟩ :=
    pw_of_body_error (anchorFailEnv e) emptyAuditDb rMinimal e hres
  refine ⟨h1, h2, ?_, h6, ?_⟩
  · rw [h4]
    rfl
  · rw [h3]
    exact ⟨_, rfl⟩

set_option maxHeartbeats 8000000 in
/-- C7: with every upload attempt failing, the store step makes exactly
three attempts, sleeping `min(10, 2**attempt)` = 2s then 4s between them,
the last failure propagates, and the run ends `failed` with the truncated
error text in `last_processing_error` and no stored artifact URL. -/
theorem C7_store_retry_exhaustion_fails_run (e : PyErr) :
    (process_report_workflow (uploadFailEnv e) emptyAuditDb rMinimal).2 = .error e ∧
    (process_report_workflow (uploadFailEnv e) emptyAuditDb rMinimal).1.report.status =
      "failed" ∧
    (process_report_workflow (uploadFailEnv e) emptyAuditDb rMinimal).1.report.s3_url =
      none ∧
    dget (adOf (process_report_workflow (uploadFailEnv e) emptyAuditDb
        rMinimal).1.report) "last_processing_error" =
      some (.str (strTake (pyErrMessage e) 500)) ∧
    (∃ h, (process_report_workflow (uploadFailEnv e) emptyAuditDb rMinimal).1.trace =
      [.resolveUrlCall, .cookieCall, .metaCall, .aiFullCall, .hashComputed h,
       .auditAppendCall, .anchorCall h, .verifyRegisterCall, .screenshotCall,
       .screenshotCall, .pdfGenCall, .uploadAttempt 1, .sleepSecs 2,
       .uploadAttempt 2, .sleepSecs 4, .uploadAttempt 3]) := by
  have hres : (wfBody (uploadFailEnv e) ⟨rMinimal, emptyAuditDb, []⟩).2 = .error e :=
    rfl
  obtain ⟨h1, h2, h3, _h4, h5, h6⟩ :=
    pw_of_body_error (uploadFailEnv e) emptyAuditDb rMinimal e hres
  refine ⟨h1, h2, ?_, h6, ?_⟩
  · rw [h5]
    rfl
  · rw [h3]
    exact ⟨_, rfl⟩

/-- C4 counterexample: on an empty ledger, the first `anchor_evidence("ab")`
submits a transaction and returns its hex reference `"0xtx0"`; the second
call submits nothing but returns the constant `"already_anchored"` — not
the first call's reference — because the status dict returned by
`get_anchor_status` has no `tx_hash` key, so `status.get("tx_hash")` is
always `None`. -/
theorem C4_second_call_returns_sentinel_not_first_ref :
    anchor_evidence ⟨"k"⟩ ⟨[], [], 0⟩ "ab" "" =
      .ok ("0xtx0", ⟨[("ab", 0)], ["0xtx0"], 1⟩) ∧
    anchor_evidence ⟨"k"⟩ ⟨[("ab", 0)], ["0xtx0"], 1⟩ "ab" "" =
      .ok ("already_anchored", ⟨[("ab", 0)], ["0xtx0"], 1⟩) ∧
    "already_anchored" ≠ "0xtx0" :=
  ⟨rfl, rfl, by decide⟩

/-- C4 (amended): calling `anchor_evidence` twice in sequence on a hash not
yet anchored results in exactly one submitted write transaction; the second
call submits no transaction and leaves the ledger unchanged, but returns
the constant string `"already_anchored"` (the status lookup carries no
transaction reference), not the first call's reference. -/
theorem C4_anchor_idempotent_single_write (env : ChainEnv) (ledger : Ledger)
    (h m1 m2 : String) (hkey : env.privateKey ≠ "")
    (hnew : ledger.anchored.find? (fun p => p.1 == hash_to_bytes32 h) = none) :
    ∃ tx1,
      anchor_evidence env ledger h m1 =
        .ok (tx1, ⟨(hash_to_bytes32 h, ledger.time) :: ledger.anchored,
                   ledger.txs ++ [tx1], ledger.time + 1⟩) ∧
      (ledger.txs ++ [tx1]).length = ledger.txs.length + 1 ∧
      anchor_evidence env
        ⟨(hash_to_bytes32 h, ledger.time) :: ledger.anchored,
         ledger.txs ++ [tx1], ledger.time + 1⟩ h m2 =
        .ok ("already_anchored",
          ⟨(hash_to_bytes32 h, ledger.time) :: ledger.anchored,
           ledger.txs ++ [tx1], ledger.time + 1⟩) := by
  have hkeyF : (env.privateKey == "") = false := beq_eq_false_iff_ne.mpr hkey
  refine ⟨txRefOfNonce ledger.txs.length, ?_, by simp, ?_⟩
  · simp [anchor_evidence, get_anchor_status, hnew, dget, pyTruthyOpt, pyTruthy,
      hkeyF, pyOr]
  · simp [anchor_evidence, get_anchor_status, dget, pyTruthyOpt, pyTruthy,
      pyOr, pyStr, List.find?]

/-- Witness for the amended C4 on a concrete ledger. -/
theorem C4_anchor_idempotent_single_write_witness :
    ("k" ≠ "" ∧
     (([] : List (String × Nat)).find?
        (fun p => p.1 == hash_to_bytes32 "ab") = none)) ∧
    (∃ tx1,
      anchor_evidence ⟨"k"⟩ ⟨[], [], 0⟩ "ab" "m1" =
        .ok (tx1, ⟨(hash_to_bytes32 "ab", 0) :: [], [] ++ [tx1], 0 + 1⟩) ∧
      (([] : List String) ++ [tx1]).length = ([] : List String).length + 1 ∧
      anchor_evidence ⟨"k"⟩
        ⟨(hash_to_bytes32 "ab", 0) :: [], [] ++ [tx1], 0 + 1⟩ "ab" "m2" =
        .ok ("already_anchored",
          ⟨(hash_to_bytes32 "ab", 0) :: [], [] ++ [tx1], 0 + 1⟩)) :=
  ⟨⟨by decide, rfl⟩,
   C4_anchor_idempotent_single_write ⟨"k"⟩ ⟨[], [], 0⟩ "ab" "m1" "m2"
     (by decide) rfl⟩

/-- Adjacent linking is preserved when appending an event whose `hash_prev`
is the hash of the chain's last event. -/
theorem chainLinked_append (l : List AuditChainEvent) (ev : AuditChainEvent)
    (hl : chainLinked l) (he : ev.hash_prev = lastHash l) :
    chainLinked (l ++ [ev]) := by
  induction l with
  | nil => simp [chainLinked]
  | cons a t ih =>
      cases t with
      | nil =>
          simp only [chainLinked, lastHash, List.getLast?_singleton] at he ⊢
          exact ⟨he, trivial⟩
      | cons b t2 =>
          obtain ⟨h1, hl2⟩ := hl
          have he2 : ev.hash_prev = lastHash (b :: t2) := by
            rw [he]
            simp [lastHash, List.getLast?_cons_cons]
          exact ⟨h1, ih hl2 he2⟩

/-- The chain invariant is preserved when appending an event whose
`hash_prev` is `lastHash` of the existing chain. -/
theorem chainOk_append (l : List AuditChainEvent) (ev : AuditChainEvent)
    (hok : chainOk l) (he : ev.hash_prev = lastHash l) :
    chainOk (l ++ [ev]) := by
  cases l with
  | nil =>
      simp only [lastHash, List.getLast?_nil] at he
      simpa [chainOk, chainLinked] using he
  | cons a t =>
      exact ⟨hok.1, chainLinked_append (a :: t) ev hok.2 he⟩

/-- Appending any sequence of audit events preserves the per-report chain
invariant. -/
theorem applyAppends_chainOk (reqs : List AppendReq) (db : AuditDb)
    (hinv : ∀ rid, chainOk (db.events.filter (fun e => e.report_id == rid))) :
    ∀ rid, chainOk
      ((applyAppends db reqs).events.filter (fun e => e.report_id == rid)) := by
  induction reqs generalizing db with
  | nil => exact hinv
  | cons req rest ih =>
      simp only [applyAppends, append_audit_event]
      apply ih
      intro rid
      rw [List.filter_append]
      by_cases hr : (req.report_id == rid) = true
      · have hrid : req.report_id = rid := by simpa using hr
        subst hrid
        simp only [List.filter_cons, List.filter_nil, hr, if_pos]
        exact chainOk_append _ _ (hinv req.report_id) rfl
      · simp only [List.filter_cons, List.filter_nil, hr]
        simpa using hinv rid

/-- C6: starting from an empty audit table, after any sequence of
`append_audit_event` calls, every report's events (in creation order)
satisfy the chain invariant: the first event's `hash_prev` is the
`"GENESIS"` sentinel and each later event's `hash_prev` equals the previous
event's `hash`; moreover events carry strictly increasing creation times,
so insertion order is creation order. -/
theorem C6_audit_chain_integrity (reqs : List AppendReq) (rid : String) :
    chainOk
      ((applyAppends emptyAuditDb reqs).events.filter
        (fun e => e.report_id == rid)) ∧
    List.Pairwise (fun a b => a.created_at < b.created_at)
      (applyAppends emptyAuditDb reqs).events := by
  constructor
  · exact applyAppends_chainOk reqs emptyAuditDb (fun _ => trivial) rid
  · have main : ∀ (rs : List AppendReq) (db : AuditDb),
        (∀ ev ∈ db.events, ev.created_at < db.clock) →
        List.Pairwise (fun a b => a.created_at < b.created_at) db.events →
        List.Pairwise (fun a b => a.created_at < b.created_at)
          (applyAppends db rs).events := by
      intro rs
      induction rs with
      | nil => exact fun db _ hp => hp
      | cons req rest ih =>
          intro db hcl hp
          apply ih
          · intro ev hev
            simp only [append_audit_event, List.mem_append] at hev
            rcases hev with hev | hev
            · exact Nat.lt_succ_of_lt (hcl ev hev)
            · simp only [List.mem_singleton] at hev
              subst hev
              exact Nat.lt_succ_self _
          · simp only [append_audit_event]
            rw [List.pairwise_append]
            refine ⟨hp, List.pairwise_singleton _ _, ?_⟩
            intro a ha b hb
            simp only [List.mem_singleton] at hb
            subst hb
            exact hcl a ha
    exact main reqs emptyAuditDb (by simp [emptyAuditDb]) (by simp [emptyAuditDb])

/-- Serialization of an object is determined by the serialized entries. -/
theorem dumps_obj_congr_entries (ea : Bool) (l1 l2 : List (String × JValue))
    (h : dumpsEntries ea l1 = dumpsEntries ea l2) :
    dumps ea (.obj l1) = dumps ea (.obj l2) := by
  simp only [dumps]
  rw [h]

/-- C5: the evidence digest is a pure function of the canonical payload,
and `sort_keys=True` canonicalizes dict ordering: two runs whose
`assessment_data` snapshots hold the same key/value pairs (in any
insertion order; keys are unique in a Python dict) and whose other payload
fields agree produce the identical digest. -/
theorem C5_evidence_digest_deterministic (id fw co narrative ts : String)
    (ad1 ad2 : List (String × JValue)) (hp : ad1.Perm ad2)
    (hn : (ad1.map Prod.fst).Nodup) :
    evidenceHashOf id fw co (.obj ad1) narrative ts =
      evidenceHashOf id fw co (.obj ad2) narrative ts := by
  have had : dumps true (.obj ad1) = dumps true (.obj ad2) :=
    dumps_obj_perm true ad1 ad2 hp hn
  unfold evidenceHashOf evidencePayload
  congr 1
  apply dumps_obj_congr_entries
  simp only [dumpsEntries_eq_map, List.map_cons, List.map_nil]
  rw [had]

/-- Witness for C5: two insertion orders of the same assessment snapshot. -/
theorem C5_evidence_digest_deterministic_witness :
    (([("b", JValue.num 1), ("a", JValue.str "x")] :
        List (String × JValue)).Perm
      [("a", JValue.str "x"), ("b", JValue.num 1)] ∧
     (([("b", JValue.num 1), ("a", JValue.str "x")] :
        List (String × JValue)).map Prod.fst).Nodup) ∧
    evidenceHashOf "r1" "f" "Co" (.obj [("b", .num 1), ("a", .str "x")]) "n" "t" =
      evidenceHashOf "r1" "f" "Co" (.obj [("a", .str "x"), ("b", .num 1)]) "n" "t" :=
  ⟨⟨List.Perm.swap _ _ _, by decide⟩,
   C5_evidence_digest_deterministic "r1" "f" "Co" "n" "t"
     [("b", .num 1), ("a", .str "x")] [("a", .str "x"), ("b", .num 1)]
     (List.Perm.swap _ _ _) (by decide)⟩

/-- C8: when the polling guard's attempt ceiling or cool-down window is
violated for an unready report, no new workflow run is scheduled and the
attempt bookkeeping is unchanged — but the caller does not receive the
rate-limit signal: the `HTTPException(429)` is swallowed by the enclosing
`except Exception` (`app/api/reports.py`, line 486) and the endpoint ends
with 404 "Report not ready"; with `force=true` the workflow is run anyway,
bypassing the guard. -/
theorem C8_throttled_attempt_gets_404_not_429 (assessment : PyDict)
    (now : Nat) (force : Bool)
    (h : asIntD (dget assessment "processing_attempts") 0 ≥
           (MAX_PROCESSING_ATTEMPTS : Int) ∨
         (∃ t, (match dget assessment "last_processing_attempt_at" with
                | some (.str s) => fromIso s
                | _ => none) = some t ∧
           ((now : Int) - t) < (PROCESSING_RETRY_WINDOW_SECONDS : Int))) :
    (poll_unready_trigger assessment now force).background_scheduled = false ∧
    (poll_unready_trigger assessment now force).set_processing = false ∧
    (poll_unready_trigger assessment now force).assessment = assessment ∧
    (poll_unready_trigger assessment now force).rate_limited_internally = true ∧
    (poll_unready_trigger assessment now force).response_code = 404 ∧
    (poll_unready_trigger assessment now force).response_detail =
      "Report not ready" ∧
    (poll_unready_trigger assessment now force).forced_run = force := by
  unfold poll_unready_trigger
  by_cases h1 : asIntD (dget assessment "processing_attempts") 0 ≥
      (MAX_PROCESSING_ATTEMPTS : Int)
  · simp [h1]
  · rcases h with h | ⟨t, ht, hlt⟩
    · exact absurd h h1
    · simp [h1, ht, hlt]

/-- Witness for C8 at `processing_attempts = 3` (a 4th trigger attempt). -/
theorem C8_throttled_attempt_gets_404_not_429_witness :
    (asIntD (dget [("processing_attempts", JValue.num 3)]
        "processing_attempts") 0 ≥ (MAX_PROCESSING_ATTEMPTS : Int)) ∧
    ((poll_unready_trigger [("processing_attempts", JValue.num 3)] 1000
        false).background_scheduled = false ∧
     (poll_unready_trigger [("processing_attempts", JValue.num 3)] 1000
        false).set_processing = false ∧
     (poll_unready_trigger [("processing_attempts", JValue.num 3)] 1000
        false).assessment = [("processing_attempts", JValue.num 3)] ∧
     (poll_unready_trigger [("processing_attempts", JValue.num 3)] 1000
        false).rate_limited_internally = true ∧
     (poll_unready_trigger [("processing_attempts", JValue.num 3)] 1000
        false).response_code = 404 ∧
     (poll_unready_trigger [("processing_attempts", JValue.num 3)] 1000
        false).response_detail = "Report not ready" ∧
     (poll_unready_trigger [("processing_attempts", JValue.num 3)] 1000
        false).forced_run = false) :=
  ⟨by decide,
   C8_throttled_attempt_gets_404_not_429 [("processing_attempts", JValue.num 3)]
     1000 false (Or.inl (by decide))⟩

/-- A cache hit: when the cache holds a non-empty dict under the URL's key,
`run` returns it unchanged with no collaborator calls. -/
theorem engine_run_hit (env : EngineEnv) (c : CacheStore) (url : String)
    (l : PyDict) (hget : cacheGet c (cache_key url) = some (.obj l))
    (hne : l ≠ []) : engine_run env c url = .ok (.obj l, c, []) := by
  have htv : pyTruthy (JValue.obj l) = true := by
    cases l with
    | nil => exact absurd rfl hne
    | cons a t => simp [pyTruthy]
  simp [engine_run, hget, pyTruthyOpt, htv]

/-- C9: once `run(url)` has completed and stored its result under
`cache_key(url)` (the SHA-256 of the URL), a subsequent `run(url)` against
the resulting cache returns the same result unchanged, leaves the cache
unchanged, and performs no scanner, narrative, digest or anchoring work
(its effect list is empty). -/
theorem C9_engine_run_memoizes (env : EngineEnv) (c0 : CacheStore)
    (url : String) (r : JValue) (c1 : CacheStore) (effs : List EngineEffect)
    (h : engine_run env c0 url = .ok (r, c1, effs)) :
    engine_run env c1 url = .ok (r, c1, []) := by
  by_cases hc : pyTruthyOpt (cacheGet c0 (cache_key url)) = true
  · simp only [engine_run, hc, if_true, Except.ok.injEq, Prod.mk.injEq] at h
    obtain ⟨hr, hc1, _⟩ := h
    subst hc1
    subst hr
    simp [engine_run, hc]
  · simp only [engine_run, hc] at h
    rw [if_neg (by simp [hc])] at h
    split at h
    · exact absurd h (by simp)
    · split at h
      · exact absurd h (by simp)
      · simp only [Except.ok.injEq, Prod.mk.injEq] at h
        obtain ⟨hr, hc1, _⟩ := h
        subst hr
        subst hc1
        exact engine_run_hit env _ url _ (dget_dset_self _ _ _) (dset_ne_nil _ _ _)

/-- The cache key of `"u"`: SHA-256 of its UTF-8 bytes. -/
def c9Key : String :=
  "0bfe935e70c321c7ca3afc75ce0d0ca2f98b5422e008bb31c00c6d7f1f1c0ad6"

/-- The orchestration result `run("u")` computes under `quietEngineEnv`. -/
def c9Value : JValue :=
  .obj [("url", .str "u"), ("scan", .obj []), ("ai", .null),
        ("notary_hash",
          .str "a87f9b31e5dfbc88ba56abc366c0c4a6fea8cc8562596a0d188089ff15f4a34b"),
        ("blockchain_tx_hash", .null)]

/-- Witness for C9: a first run on an empty cache computes, stores and
returns the result; the second run returns it from the cache with no
effects. -/
theorem C9_engine_run_memoizes_witness :
    engine_run quietEngineEnv [] "u" =
      .ok (c9Value, [(c9Key, c9Value)], [.scanCall "u"]) ∧
    engine_run quietEngineEnv [(c9Key, c9Value)] "u" =
      .ok (c9Value, [(c9Key, c9Value)], []) :=
  ⟨rfl,
   C9_engine_run_memoizes quietEngineEnv [] "u" c9Value [(c9Key, c9Value)]
     [.scanCall "u"] rfl⟩

end Booppa
